import Mathlib

/-!
Shallow embedding of the OPL2 audio library core (src/OPL2.cpp): the shadow
register file `oplRegisters`, the transmitted-byte log of the bus, the
channel/operator addressing scheme, the instrument codec and the frequency
model.  Bytes are modelled as `Nat` (all register values produced by the
code are `< 256` by construction of the masks), C floats as `ℚ`, and the C
casts `(short)` / `(byte)` of a float as truncation toward zero (their
behaviour on the defined range of the conversion).
-/

/-- One FM operator of an instrument (struct Operator of the library). -/
structure Operator where
  hasTremolo : Bool
  hasVibrato : Bool
  hasSustain : Bool
  hasEnvelopeScaling : Bool
  frequencyMultiplier : Nat
  keyScaleLevel : Nat
  outputLevel : Nat
  attack : Nat
  decay : Nat
  sustain : Nat
  release : Nat
  waveForm : Nat
deriving DecidableEq

/-- An instrument: two operators plus channel level settings
(struct Instrument of the library). -/
structure Instrument where
  operators : Fin 2 → Operator
  feedback : Nat
  isAdditiveSynth : Bool
  type : Nat

/-- Constant ZERO of the library headers. -/
def ZERO : Nat := 0

/-- Constant ONE of the library headers. -/
def ONE : Nat := 1

/-- Modelled from the spec: OPL2.h (not under src/) bounds the channel
index to [0, 8] (nine melodic voices). -/
def CHANNEL_MAX : Nat := 8

/-- Modelled from the spec: OPL2.h bounds the block/octave to [0, 7]
(3-bit block). -/
def OCTAVE_MAX : Nat := 7

/-- Modelled from the spec: OPL2.h bounds the note index; the note table has
twelve entries, one per semitone. -/
def NOTE_MAX : Nat := 11

/-- Modelled from the spec: OPL2.h counts five drum sounds
(bass, snare, tom, cymbal, hi-hat). -/
def DRUM_SOUND_MAX : Nat := 5

/-- Modelled from the spec: lower clamp bound of the F-number. -/
def F_NUM_MIN : ℤ := 0

/-- Modelled from the spec: upper clamp bound of the 10-bit F-number. -/
def F_NUM_MAX : ℤ := 1023

/-- Modelled from the spec: lower clamp bound of a volume. -/
def VOLUME_MIN : ℚ := 0

/-- Modelled from the spec: upper clamp bound of a volume. -/
def VOLUME_MAX : ℚ := 1

/-- Modelled from the spec: the melodic instrument type tag (the deprecated
`setInstrument` treats data byte 0 values 6..10 as the percussive types, so
the melodic tag is outside that range; the codec stores it but never
dispatches on its exact value). -/
def INSTRUMENT_TYPE_MELODIC : Nat := 0

/-- Modelled from the spec: the bass drum instrument type tag; the
percussive tags BASS..HI_HAT are the consecutive values 6..10, matching the
percussion channels of the deprecated `setInstrument` and making
`type - INSTRUMENT_TYPE_BASS` the index 0..4 into the drum tables. -/
def INSTRUMENT_TYPE_BASS : Nat := 6

/-- Modelled from the spec: OPL2.h's `registerOffsets[2][9]` table mapping
(operator, channel) to the per-operator register offset.  The spec requires
the 18 offsets to be pairwise distinct, and the source comment in the
deprecated `setInstrument` places the operator register groups at
0x20..0x35, 0x40..0x55, ... so the offsets lie in 0x00..0x15; this is the
standard YM3812 slot layout (channels 0-2, 3-5, 6-8 in banks of 8, second
operator three slots above the first). -/
def registerOffsets : List (List Nat) :=
  [[0x00, 0x01, 0x02, 0x08, 0x09, 0x0A, 0x10, 0x11, 0x12],
   [0x03, 0x04, 0x05, 0x0B, 0x0C, 0x0D, 0x13, 0x14, 0x15]]

/-- Modelled from the spec: OPL2.h's `drumRegisterOffsets[2][5]` table,
indexed by (operator, drumType - BASS).  0xFF is the sentinel for a drum
type that does not use that operator slot: bass uses both operators of
channel 6 (offsets 0x10, 0x13), snare only operator 1 of channel 7 (0x14),
tom only operator 0 of channel 8 (0x12), cymbal only operator 1 of channel
8 (0x15) and hi-hat only operator 0 of channel 7 (0x11). -/
def drumRegisterOffsets : List (List Nat) :=
  [[0x10, 0xFF, 0x12, 0xFF, 0x11],
   [0x13, 0x14, 0xFF, 0x15, 0xFF]]

/-- Modelled from the spec: OPL2.h's `drumChannels[5]`, the fixed mapping
bass → 6, snare → 7, tom → 8, cymbal → 8, hi-hat → 7. -/
def drumChannels : List Nat := [6, 7, 8, 8, 7]

/-- Modelled from the spec: OPL2.h's `drumBits[5]`, the five independent
drum trigger bits of register 0xBD (bass 0x10, snare 0x08, tom 0x04,
cymbal 0x02, hi-hat 0x01), together covering the mask 0x1F used by
`getDrums` / `setDrums`. -/
def drumBits : List Nat := [0x10, 0x08, 0x04, 0x02, 0x01]

/-- Modelled from the spec: OPL2.h's `noteFNumbers[12]`, the per-semitone
F-number table (block assumed equal to the octave). -/
def noteFNumbers : List Nat :=
  [0x156, 0x16B, 0x181, 0x198, 0x1B0, 0x1CA, 0x1E5, 0x202, 0x220, 0x241, 0x263, 0x287]

/-- Modelled from the spec: OPL2.h's `fIntervals[8]`, the frequency step per
F-number for each block; the values are documented in the `setBlock`
comment of src/OPL2.cpp (0.048 Hz for block 0 up to 6.069 Hz for block 7).
Only their positivity is used by the theorems below. -/
def fIntervals : List ℚ :=
  [0.048, 0.095, 0.190, 0.379, 0.759, 1.517, 3.034, 6.069]

/-- Modelled from the spec: OPL2.h's `blockFrequencies[8]`, the frequency
ceiling of each block; the values are the upper range bounds documented in
the `setBlock` comment of src/OPL2.cpp. -/
def blockFrequencies : List ℚ :=
  [48.503, 97.006, 194.013, 388.026, 776.053, 1552.107, 3104.215, 6208.431]

/-- The observable state of the embedding: the shadow register file
`oplRegisters` plus the log of every (register, data) byte pair transmitted
over the bus, most recent first. -/
structure OPL2State where
  regs : Nat → Nat
  bus : List (Nat × Nat)

/-- `OPL2::write(reg, data)`: the two-phase bus transfer.  It transmits the
(register, data) pair and does NOT touch the shadow state. -/
def write (s : OPL2State) (reg data : Nat) : OPL2State :=
  { s with bus := (reg, data) :: s.bus }

/-- `OPL2::setRegister(reg, value)`: records the value in the shadow state
and transmits it. -/
def setRegister (s : OPL2State) (reg value : Nat) : OPL2State :=
  { regs := fun a => if a = reg then value else s.regs a,
    bus := (reg, value) :: s.bus }

/-- `OPL2::getRegister(reg)`: shadow read, never queries the hardware. -/
def getRegister (s : OPL2State) (reg : Nat) : Nat := s.regs reg

/-- The state at chip bring-up (the member array of a zero-initialized
object, with nothing transmitted yet). -/
def initState : OPL2State := { regs := fun _ => 0, bus := [] }

/-- `OPL2::reset()`: hard reset pulse, then the loop
`for i in 0..255 { oplRegisters[i] = 0; write(i, 0) }`; in closed form the
shadow file is zero on every address below 256 and a zero byte has been
transmitted for each of the 256 addresses (ascending, so descending in the
most-recent-first log). -/
def reset (s : OPL2State) : OPL2State :=
  { regs := fun a => if a < 256 then 0 else s.regs a,
    bus := ((List.range 256).map fun i => (i, 0)).reverse ++ s.bus }

/-- `OPL2::getRegisterOffset(channel, operatorNum)`: clamp both indices and
look up the offset table. -/
def getRegisterOffset (channel operatorNum : Nat) : Nat :=
  (registerOffsets.getD (max ZERO (min operatorNum ONE)) []).getD
    (max ZERO (min channel CHANNEL_MAX)) 0

/-- `OPL2::getBlock(channel)`: bits 2..4 of register 0xB0 + channel. -/
def getBlock (s : OPL2State) (channel : Nat) : Nat :=
  (s.regs (0xB0 + max ZERO (min channel CHANNEL_MAX)) &&& 0x1C) >>> 2

/-- Models the C cast of a float to an integer type: truncation toward
zero (the behaviour on the defined range of the conversion). -/
def ratTrunc (q : ℚ) : ℤ := if 0 ≤ q then ⌊q⌋ else ⌈q⌉

/-- Models the C `(byte)` cast of a float: truncation toward zero reduced
mod 256 (on the defined range [0, 256) of the conversion this is the
floor). -/
def floatToByte (q : ℚ) : Nat := (ratTrunc q).toNat % 256

/-- `OPL2::getFrequencyStep(channel)`: the per-F-number frequency step for
the channel's current block. -/
def getFrequencyStep (s : OPL2State) (channel : Nat) : ℚ :=
  fIntervals.getD (getBlock s channel) 0

/-- `OPL2::getFrequencyFNumber(channel, frequency)`: divide by the step of
the channel's current block, truncate, clamp to [F_NUM_MIN, F_NUM_MAX]. -/
def getFrequencyFNumber (s : OPL2State) (channel : Nat) (frequency : ℚ) : ℤ :=
  max F_NUM_MIN (min (ratTrunc (frequency / getFrequencyStep s channel)) F_NUM_MAX)

/-- `OPL2::getNoteFNumber(note)`: note table lookup with clamped index. -/
def getNoteFNumber (note : Nat) : Nat :=
  noteFNumbers.getD (max ZERO (min note NOTE_MAX)) 0

/-- `OPL2::getFrequencyBlock(frequency)`: the loop
`for i in 0..7 { if frequency < blockFrequencies[i] return i }; return 7`,
unrolled (the i = 7 iteration returns 7 whether or not its test fires, so
it merges with the fallthrough). -/
def getFrequencyBlock (frequency : ℚ) : Nat :=
  if frequency < blockFrequencies.getD 0 0 then 0
  else if frequency < blockFrequencies.getD 1 0 then 1
  else if frequency < blockFrequencies.getD 2 0 then 2
  else if frequency < blockFrequencies.getD 3 0 then 3
  else if frequency < blockFrequencies.getD 4 0 then 4
  else if frequency < blockFrequencies.getD 5 0 then 5
  else if frequency < blockFrequencies.getD 6 0 then 6
  else 7

/-- `OPL2::getWaveFormSelect()`: bit 5 of register 0x01. -/
def getWaveFormSelect (s : OPL2State) : Bool := (s.regs 0x01 &&& 0x20) != 0

/-- `OPL2::setWaveFormSelect(enable)`: read-modify-write of bit 5 of
register 0x01. -/
def setWaveFormSelect (s : OPL2State) (enable : Bool) : OPL2State :=
  if enable then setRegister s 0x01 (s.regs 0x01 ||| 0x20)
  else setRegister s 0x01 (s.regs 0x01 &&& 0xDF)

/-- `OPL2::getTremolo(channel, operatorNum)`: bit 7 of the 0x20 group. -/
def getTremolo (s : OPL2State) (channel operatorNum : Nat) : Bool :=
  (s.regs (0x20 + getRegisterOffset channel operatorNum) &&& 0x80) != 0

/-- `OPL2::getVibrato(channel, operatorNum)`: bit 6 of the 0x20 group. -/
def getVibrato (s : OPL2State) (channel operatorNum : Nat) : Bool :=
  (s.regs (0x20 + getRegisterOffset channel operatorNum) &&& 0x40) != 0

/-- `OPL2::getMaintainSustain(channel, operatorNum)`: bit 5 of the 0x20
group. -/
def getMaintainSustain (s : OPL2State) (channel operatorNum : Nat) : Bool :=
  (s.regs (0x20 + getRegisterOffset channel operatorNum) &&& 0x20) != 0

/-- `OPL2::getEnvelopeScaling(channel, operatorNum)`: bit 4 of the 0x20
group. -/
def getEnvelopeScaling (s : OPL2State) (channel operatorNum : Nat) : Bool :=
  (s.regs (0x20 + getRegisterOffset channel operatorNum) &&& 0x10) != 0

/-- `OPL2::getMultiplier(channel, operatorNum)`: low nibble of the 0x20
group. -/
def getMultiplier (s : OPL2State) (channel operatorNum : Nat) : Nat :=
  s.regs (0x20 + getRegisterOffset channel operatorNum) &&& 0x0F

/-- `OPL2::setMultiplier(channel, operatorNum, multiplier)`. -/
def setMultiplier (s : OPL2State) (channel operatorNum multiplier : Nat) : OPL2State :=
  let reg := 0x20 + getRegisterOffset channel operatorNum
  setRegister s reg ((s.regs reg &&& 0xF0) ||| (multiplier &&& 0x0F))

/-- `OPL2::getScalingLevel(channel, operatorNum)`: bits 6..7 of the 0x40
group. -/
def getScalingLevel (s : OPL2State) (channel operatorNum : Nat) : Nat :=
  (s.regs (0x40 + getRegisterOffset channel operatorNum) &&& 0xC0) >>> 6

/-- `OPL2::getVolume(channel, operatorNum)`: low 6 bits of the 0x40
group. -/
def getVolume (s : OPL2State) (channel operatorNum : Nat) : Nat :=
  s.regs (0x40 + getRegisterOffset channel operatorNum) &&& 0x3F

/-- `OPL2::setVolume(channel, operatorNum, volume)`. -/
def setVolume (s : OPL2State) (channel operatorNum volume : Nat) : OPL2State :=
  let reg := 0x40 + getRegisterOffset channel operatorNum
  setRegister s reg ((s.regs reg &&& 0xC0) ||| (volume &&& 0x3F))

/-- `OPL2::getAttack(channel, operatorNum)`: high nibble of the 0x60
group. -/
def getAttack (s : OPL2State) (channel operatorNum : Nat) : Nat :=
  (s.regs (0x60 + getRegisterOffset channel operatorNum) &&& 0xF0) >>> 4

/-- `OPL2::setAttack(channel, operatorNum, attack)`. -/
def setAttack (s : OPL2State) (channel operatorNum attack : Nat) : OPL2State :=
  let reg := 0x60 + getRegisterOffset channel operatorNum
  setRegister s reg ((s.regs reg &&& 0x0F) ||| ((attack &&& 0x0F) <<< 4))

/-- `OPL2::getDecay(channel, operatorNum)`: low nibble of the 0x60
group. -/
def getDecay (s : OPL2State) (channel operatorNum : Nat) : Nat :=
  s.regs (0x60 + getRegisterOffset channel operatorNum) &&& 0x0F

/-- `OPL2::setDecay(channel, operatorNum, decay)`. -/
def setDecay (s : OPL2State) (channel operatorNum decay : Nat) : OPL2State :=
  let reg := 0x60 + getRegisterOffset channel operatorNum
  setRegister s reg ((s.regs reg &&& 0xF0) ||| (decay &&& 0x0F))

/-- `OPL2::getSustain(channel, operatorNum)`: high nibble of the 0x80
group. -/
def getSustain (s : OPL2State) (channel operatorNum : Nat) : Nat :=
  (s.regs (0x80 + getRegisterOffset channel operatorNum) &&& 0xF0) >>> 4

/-- `OPL2::setSustain(channel, operatorNum, sustain)`. -/
def setSustain (s : OPL2State) (channel operatorNum sustain : Nat) : OPL2State :=
  let reg := 0x80 + getRegisterOffset channel operatorNum
  setRegister s reg ((s.regs reg &&& 0x0F) ||| ((sustain &&& 0x0F) <<< 4))

/-- `OPL2::getRelease(channel, operatorNum)`: low nibble of the 0x80
group. -/
def getRelease (s : OPL2State) (channel operatorNum : Nat) : Nat :=
  s.regs (0x80 + getRegisterOffset channel operatorNum) &&& 0x0F

/-- `OPL2::setRelease(channel, operatorNum, release)`. -/
def setRelease (s : OPL2State) (channel operatorNum release : Nat) : OPL2State :=
  let reg := 0x80 + getRegisterOffset channel operatorNum
  setRegister s reg ((s.regs reg &&& 0xF0) ||| (release &&& 0x0F))

/-- `OPL2::getWaveForm(channel, operatorNum)`: low 2 bits of the 0xE0
group. -/
def getWaveForm (s : OPL2State) (channel operatorNum : Nat) : Nat :=
  s.regs (0xE0 + getRegisterOffset channel operatorNum) &&& 0x03

/-- `OPL2::setWaveForm(channel, operatorNum, waveForm)`. -/
def setWaveForm (s : OPL2State) (channel operatorNum waveForm : Nat) : OPL2State :=
  let reg := 0xE0 + getRegisterOffset channel operatorNum
  setRegister s reg ((s.regs reg &&& 0xFC) ||| (waveForm &&& 0x03))

/-- `OPL2::setFNumber(channel, fNumber)`: low byte into 0xA0 + channel,
then bits 8..9 into the low 2 bits of 0xB0 + channel. -/
def setFNumber (s : OPL2State) (channel fNumber : Nat) : OPL2State :=
  let reg := 0xA0 + max ZERO (min channel CHANNEL_MAX)
  let s1 := setRegister s reg (fNumber &&& 0x00FF)
  setRegister s1 (reg + 0x10) ((s1.regs (reg + 0x10) &&& 0xFC) |||
    ((fNumber &&& 0x0300) >>> 8))

/-- `OPL2::getFNumber(channel)`. -/
def getFNumber (s : OPL2State) (channel : Nat) : Nat :=
  let offset := max ZERO (min channel CHANNEL_MAX)
  ((s.regs (0xB0 + offset) &&& 0x03) <<< 8) + s.regs (0xA0 + offset)

/-- `OPL2::setBlock(channel, block)`. -/
def setBlock (s : OPL2State) (channel block : Nat) : OPL2State :=
  let reg := 0xB0 + max ZERO (min channel CHANNEL_MAX)
  setRegister s reg ((s.regs reg &&& 0xE3) ||| ((block &&& 0x07) <<< 2))

/-- `OPL2::getKeyOn(channel)`: bit 5 of register 0xB0 + channel. -/
def getKeyOn (s : OPL2State) (channel : Nat) : Bool :=
  (s.regs (0xB0 + max ZERO (min channel CHANNEL_MAX)) &&& 0x20) != 0

/-- `OPL2::setKeyOn(channel, keyOn)`. -/
def setKeyOn (s : OPL2State) (channel : Nat) (keyOn : Bool) : OPL2State :=
  let reg := 0xB0 + max ZERO (min channel CHANNEL_MAX)
  if keyOn then setRegister s reg (s.regs reg ||| 0x20)
  else setRegister s reg (s.regs reg &&& 0xDF)

/-- `OPL2::getFeedback(channel)`: `(oplRegisters[0xC0 + ch] & 0xE0) >> 1`
(bits 5..7 shifted right by one, exactly as in the source). -/
def getFeedback (s : OPL2State) (channel : Nat) : Nat :=
  (s.regs (0xC0 + max ZERO (min channel CHANNEL_MAX)) &&& 0xE0) >>> 1

/-- `OPL2::setFeedback(channel, feedback)`: keep bit 0, put the low 3 bits
of the argument into bits 1..3. -/
def setFeedback (s : OPL2State) (channel feedback : Nat) : OPL2State :=
  let reg := 0xC0 + max ZERO (min channel CHANNEL_MAX)
  setRegister s reg ((s.regs reg &&& 0x01) ||| ((feedback &&& 0x07) <<< 1))

/-- `OPL2::getSynthMode(channel)`: bit 0 of register 0xC0 + channel. -/
def getSynthMode (s : OPL2State) (channel : Nat) : Bool :=
  (s.regs (0xC0 + max ZERO (min channel CHANNEL_MAX)) &&& 0x01) != 0

/-- `OPL2::getDrums()`: low 5 bits of register 0xBD. -/
def getDrums (s : OPL2State) : Nat := s.regs 0xBD &&& 0x1F

/-- `OPL2::setDrums(drums)` (the byte overload). -/
def setDrums (s : OPL2State) (drums : Nat) : OPL2State :=
  setRegister s 0xBD ((s.regs 0xBD &&& 0xE0) ||| (drums &&& 0x1F))

/-- `OPL2::getInstrument(channel)`: reassemble an instrument from the
shadow state through the per-operator getters. -/
def getInstrument (s : OPL2State) (channel : Nat) : Instrument :=
  { operators := fun op =>
      { hasTremolo := getTremolo s channel op
        hasVibrato := getVibrato s channel op
        hasSustain := getMaintainSustain s channel op
        hasEnvelopeScaling := getEnvelopeScaling s channel op
        frequencyMultiplier := getMultiplier s channel op
        keyScaleLevel := getScalingLevel s channel op
        outputLevel := getVolume s channel op
        attack := getAttack s channel op
        decay := getDecay s channel op
        sustain := getSustain s channel op
        release := getRelease s channel op
        waveForm := getWaveForm s channel op }
    feedback := getFeedback s channel
    isAdditiveSynth := getSynthMode s channel
    type := INSTRUMENT_TYPE_MELODIC }

/-- The loop body of `OPL2::setInstrument` for one operator: five raw bus
`write`s of the packed operator bytes (note: `write`, not `setRegister`, as
in the source). -/
def setInstrumentOperator (s : OPL2State) (channel : Nat) (instrument : Instrument)
    (volume : ℚ) (op : Fin 2) : OPL2State :=
  let o := instrument.operators op
  let outputLevel : Nat := 63 - floatToByte ((63 - (o.outputLevel : ℚ)) * volume)
  let registerOffset := (registerOffsets.getD (op : Nat) []).getD channel 0
  let s := write s (0x20 + registerOffset)
    ((if o.hasTremolo then 0x80 else 0x00) + (if o.hasVibrato then 0x40 else 0x00) +
     (if o.hasSustain then 0x20 else 0x00) + (if o.hasEnvelopeScaling then 0x10 else 0x00) +
     (o.frequencyMultiplier &&& 0x0F))
  let s := write s (0x40 + registerOffset)
    (((o.keyScaleLevel &&& 0x03) <<< 6) + (outputLevel &&& 0x3F))
  let s := write s (0x60 + registerOffset)
    (((o.attack &&& 0x0F) <<< 4) + (o.decay &&& 0x0F))
  let s := write s (0x80 + registerOffset)
    (((o.sustain &&& 0x0F) <<< 4) + (o.release &&& 0x0F))
  write s (0xE0 + registerOffset) (o.waveForm &&& 0x03)

/-- `OPL2::setInstrument(channel, instrument, volume)` (the Instrument
overload): clamp the channel and the volume, force wave-form select on,
write the five packed register groups of both operators and finally the
feedback/algorithm byte — all through raw `write`, so none of these bytes
reach the shadow state. -/
def setInstrument (s : OPL2State) (channel : Nat) (instrument : Instrument)
    (volume : ℚ) : OPL2State :=
  let channel := max ZERO (min channel CHANNEL_MAX)
  let volume := max VOLUME_MIN (min volume VOLUME_MAX)
  let s := setWaveFormSelect s true
  let s := setInstrumentOperator s channel instrument volume 0
  let s := setInstrumentOperator s channel instrument volume 1
  write s (0xC0 + channel)
    (((instrument.feedback &&& 0x07) <<< 1) +
     (if instrument.isAdditiveSynth then 0x01 else 0x00))

/-- The loop body of `OPL2::setDrumInstrument` for one operator slot: if
the drum offset table yields the 0xFF sentinel nothing is written;
otherwise the five packed bytes are written, all taken from
`instrument.operators[0]` except the output level (computed from the
current slot's operator, as in the source). -/
def setDrumInstrumentOperator (s : OPL2State) (instrument : Instrument)
    (volume : ℚ) (op : Fin 2) : OPL2State :=
  let o := instrument.operators op
  let o0 := instrument.operators 0
  let outputLevel : Nat := 63 - floatToByte ((63 - (o.outputLevel : ℚ)) * volume)
  let registerOffset :=
    (drumRegisterOffsets.getD (op : Nat) []).getD (instrument.type - INSTRUMENT_TYPE_BASS) 0
  if registerOffset ≠ 0xFF then
    let s := write s (0x20 + registerOffset)
      ((if o0.hasTremolo then 0x80 else 0x00) + (if o0.hasVibrato then 0x40 else 0x00) +
       (if o0.hasSustain then 0x20 else 0x00) + (if o0.hasEnvelopeScaling then 0x10 else 0x00) +
       (o0.frequencyMultiplier &&& 0x0F))
    let s := write s (0x40 + registerOffset)
      (((o0.keyScaleLevel &&& 0x03) <<< 6) + (outputLevel &&& 0x3F))
    let s := write s (0x60 + registerOffset)
      (((o0.attack &&& 0x0F) <<< 4) + (o0.decay &&& 0x0F))
    let s := write s (0x80 + registerOffset)
      (((o0.sustain &&& 0x0F) <<< 4) + (o0.release &&& 0x0F))
    write s (0xE0 + registerOffset) (o0.waveForm &&& 0x03)
  else s

/-- `OPL2::setDrumInstrument(instrument, volume)`: clamp the volume, force
wave-form select on, write the operator slots the drum tables mark as used,
then force the channel's feedback/algorithm register to 0. -/
def setDrumInstrument (s : OPL2State) (instrument : Instrument) (volume : ℚ) : OPL2State :=
  let volume := max VOLUME_MIN (min volume VOLUME_MAX)
  let s := setWaveFormSelect s true
  let s := setDrumInstrumentOperator s instrument volume 0
  let s := setDrumInstrumentOperator s instrument volume 1
  write s (0xC0 + drumChannels.getD (instrument.type - INSTRUMENT_TYPE_BASS) 0) 0x00

/-- `OPL2::playNote(channel, octave, note)`: key off, set block, set
F-number, key on. -/
def playNote (s : OPL2State) (channel octave note : Nat) : OPL2State :=
  let s := setKeyOn s channel false
  let s := setBlock s channel (max ZERO (min octave OCTAVE_MAX))
  let s := setFNumber s channel (noteFNumbers.getD (max ZERO (min note NOTE_MAX)) 0)
  setKeyOn s channel true

/-- `OPL2::playDrum(drum, octave, note)`: reduce the drum index modulo
DRUM_SOUND_MAX (the source uses `%`, not a clamp), clear its trigger bit,
set block and F-number on the drum's shared channel, then set the trigger
bit from the captured pre-clear drum state.  `drumState & ~drumBits[drum]`
on bytes is the low-byte complement mask. -/
def playDrum (s : OPL2State) (drum octave note : Nat) : OPL2State :=
  let drum := drum % DRUM_SOUND_MAX
  let drumState := getDrums s
  let s := setDrums s (drumState &&& (0xFF ^^^ drumBits.getD drum 0))
  let drumChannel := drumChannels.getD (drum % DRUM_SOUND_MAX) 0
  let s := setBlock s drumChannel (max ZERO (min octave OCTAVE_MAX))
  let s := setFNumber s drumChannel (noteFNumbers.getD (max ZERO (min note NOTE_MAX)) 0)
  setDrums s (drumState ||| drumBits.getD drum 0)

/-- The most recent byte transmitted over the bus for a given register
address, if any (the log is most recent first). -/
def lastWrite : List (Nat × Nat) → Nat → Option Nat
  | [], _ => none
  | (r, v) :: rest, a => if r = a then some v else lastWrite rest a

/-! ### Bit-manipulation toolkit -/

/-- Right shift distributes over bitwise and. -/
theorem shiftRight_land (x y n : ℕ) : (x &&& y) >>> n = (x >>> n) &&& (y >>> n) := by
  apply Nat.eq_of_testBit_eq
  intro i
  simp [Nat.add_comm i n]

/-- Right shift distributes over bitwise or. -/
theorem shiftRight_lor (x y n : ℕ) : (x ||| y) >>> n = (x >>> n) ||| (y >>> n) := by
  apply Nat.eq_of_testBit_eq
  intro i
  simp [Nat.add_comm i n]

/-- Masking a left shift is the shift of a mask by the lowered mask. -/
theorem land_shiftLeft (a b n : ℕ) : (a <<< n) &&& b = (a &&& (b >>> n)) <<< n := by
  apply Nat.eq_of_testBit_eq
  intro i
  simp only [Nat.testBit_land, Nat.testBit_shiftLeft, Nat.testBit_shiftRight]
  by_cases h : n ≤ i
  · rw [Nat.add_sub_cancel' h]
    cases a.testBit (i - n) <;> cases b.testBit i <;> simp [h]
  · simp [h]

/-- The low 6-bit mask is reduction mod 64. -/
theorem land63 (x : ℕ) : x &&& 63 = x % 64 := by
  simpa using Nat.and_pow_two_sub_one_eq_mod x 6

/-- The low 4-bit mask is reduction mod 16. -/
theorem land15 (x : ℕ) : x &&& 15 = x % 16 := by
  simpa using Nat.and_pow_two_sub_one_eq_mod x 4

/-- The low 3-bit mask is reduction mod 8. -/
theorem land7 (x : ℕ) : x &&& 7 = x % 8 := by
  simpa using Nat.and_pow_two_sub_one_eq_mod x 3

/-- The low 2-bit mask is reduction mod 4. -/
theorem land3 (x : ℕ) : x &&& 3 = x % 4 := by
  simpa using Nat.and_pow_two_sub_one_eq_mod x 2

/-- The low byte mask is reduction mod 256. -/
theorem land255 (x : ℕ) : x &&& 255 = x % 256 := by
  simpa using Nat.and_pow_two_sub_one_eq_mod x 8

/-- Reading the shadow file after `setRegister`. -/
theorem setRegister_regs (s : OPL2State) (r v a : Nat) :
    (setRegister s r v).regs a = if a = r then v else s.regs a := rfl

/-! ### Claim C7 -/

/-- Claim C7: for every frequency, `getFrequencyBlock` returns a block in
[0, 7] that is the smallest one whose table ceiling lies strictly above the
frequency, falling back to block 7 (never an error or out-of-bounds index)
when the frequency is at or above every ceiling: every smaller index fails
the strict bound, and the returned index either satisfies it or is the
saturating 7. -/
theorem c7_frequencyBlock_smallest (f : ℚ) :
    getFrequencyBlock f < 8 ∧
    (∀ j, j < getFrequencyBlock f → ¬ f < blockFrequencies.getD j 0) ∧
    (f < blockFrequencies.getD (getFrequencyBlock f) 0 ∨ getFrequencyBlock f = 7) := by
  unfold getFrequencyBlock
  split_ifs with h0 h1 h2 h3 h4 h5 h6
  · exact ⟨by norm_num, fun j hj => by interval_cases j, Or.inl h0⟩
  · exact ⟨by norm_num, fun j hj => by interval_cases j <;> assumption, Or.inl h1⟩
  · exact ⟨by norm_num, fun j hj => by interval_cases j <;> assumption, Or.inl h2⟩
  · exact ⟨by norm_num, fun j hj => by interval_cases j <;> assumption, Or.inl h3⟩
  · exact ⟨by norm_num, fun j hj => by interval_cases j <;> assumption, Or.inl h4⟩
  · exact ⟨by norm_num, fun j hj => by interval_cases j <;> assumption, Or.inl h5⟩
  · exact ⟨by norm_num, fun j hj => by interval_cases j <;> assumption, Or.inl h6⟩
  · exact ⟨by norm_num, fun j hj => by interval_cases j <;> assumption, Or.inr rfl⟩

/-! ### Claim C8 -/

/-- Claim C8: `setFeedback` stores the low 3 bits of its argument in bits
1..3 of shadow register 0xC0 + channel and preserves bit 0, while
`getFeedback` returns bits 5..7 of that register shifted right by one; the
two accessors touch disjoint bit fields, so after any `setFeedback` bits
5..7 are clear and `getFeedback` returns 0 regardless of the feedback value
just written (and on any state with bits 5..7 clear it returns 0). -/
theorem c8_feedback_disjoint_fields (s : OPL2State) (channel feedback : Nat) :
    ((setFeedback s channel feedback).regs
        (0xC0 + max ZERO (min channel CHANNEL_MAX)) >>> 1) &&& 0x07 = feedback &&& 0x07 ∧
    (setFeedback s channel feedback).regs (0xC0 + max ZERO (min channel CHANNEL_MAX)) &&& 0x01
      = s.regs (0xC0 + max ZERO (min channel CHANNEL_MAX)) &&& 0x01 ∧
    (setFeedback s channel feedback).regs (0xC0 + max ZERO (min channel CHANNEL_MAX)) &&& 0xE0
      = 0 ∧
    getFeedback (setFeedback s channel feedback) channel = 0 ∧
    (s.regs (0xC0 + max ZERO (min channel CHANNEL_MAX)) &&& 0xE0 = 0 →
      getFeedback s channel = 0) ∧
    getFeedback s channel
      = (s.regs (0xC0 + max ZERO (min channel CHANNEL_MAX)) &&& 0xE0) >>> 1 := by
  have hnew : (setFeedback s channel feedback).regs (0xC0 + max ZERO (min channel CHANNEL_MAX))
      = (s.regs (0xC0 + max ZERO (min channel CHANNEL_MAX)) &&& 0x01) |||
        ((feedback &&& 0x07) <<< 1) := by
    simp only [setFeedback, setRegister_regs]
    simp
  have hE0 : (setFeedback s channel feedback).regs (0xC0 + max ZERO (min channel CHANNEL_MAX))
      &&& 0xE0 = 0 := by
    simp only [hnew, Nat.and_distrib_right, Nat.and_assoc, land_shiftLeft,
      show (0x01 : ℕ) &&& 0xE0 = 0 from rfl,
      show (0xE0 : ℕ) >>> 1 = 0x70 from rfl,
      show (0x07 : ℕ) &&& 0x70 = 0 from rfl,
      Nat.and_zero, Nat.zero_shiftLeft, Nat.or_zero, Nat.zero_or]
  refine ⟨?_, ?_, hE0, ?_, ?_, rfl⟩
  · simp only [hnew, shiftRight_lor, shiftRight_land, Nat.shiftLeft_shiftRight,
      show (0x01 : ℕ) >>> 1 = 0 from rfl,
      Nat.and_zero, Nat.zero_or, Nat.and_assoc,
      show (0x07 : ℕ) &&& 0x07 = 0x07 from rfl]
  · simp only [hnew, Nat.and_distrib_right, Nat.and_assoc, land_shiftLeft,
      show (0x01 : ℕ) >>> 1 = 0 from rfl,
      show (0x01 : ℕ) &&& 0x01 = 0x01 from rfl,
      Nat.and_zero, Nat.zero_shiftLeft, Nat.or_zero]
  · simp only [getFeedback, hE0, Nat.zero_shiftRight]
  · intro h
    simp only [getFeedback, h, Nat.zero_shiftRight]

/-! ### Claim C10 -/

/-- Claim C10: `setFNumber` sets shadow register 0xA0 + channel (channel
clamped to [0, 8]) to the low 8 bits of the F-number and changes only the
low 2 bits of shadow register 0xB0 + channel: bits 2..7 of that register
are unchanged, hence the channel's block and key-on state read back
unchanged, and no other shadow register is touched. -/
theorem c10_setFNumber_frame (s : OPL2State) (channel fNumber : Nat) :
    (setFNumber s channel fNumber).regs (0xA0 + max ZERO (min channel CHANNEL_MAX))
      = fNumber &&& 0xFF ∧
    (setFNumber s channel fNumber).regs (0xB0 + max ZERO (min channel CHANNEL_MAX)) &&& 0xFC
      = s.regs (0xB0 + max ZERO (min channel CHANNEL_MAX)) &&& 0xFC ∧
    getBlock (setFNumber s channel fNumber) channel = getBlock s channel ∧
    getKeyOn (setFNumber s channel fNumber) channel = getKeyOn s channel ∧
    (∀ a, a ≠ 0xA0 + max ZERO (min channel CHANNEL_MAX) →
      a ≠ 0xB0 + max ZERO (min channel CHANNEL_MAX) →
      (setFNumber s channel fNumber).regs a = s.regs a) := by
  have hreg : (setFNumber s channel fNumber).regs (0xB0 + max ZERO (min channel CHANNEL_MAX))
      = (s.regs (0xB0 + max ZERO (min channel CHANNEL_MAX)) &&& 0xFC) |||
        ((fNumber &&& 0x300) >>> 8) := by
    simp only [setFNumber, setRegister_regs]
    rw [if_pos (show 0xB0 + max ZERO (min channel CHANNEL_MAX)
        = 0xA0 + max ZERO (min channel CHANNEL_MAX) + 0x10 by omega),
      if_neg (show ¬ (0xA0 + max ZERO (min channel CHANNEL_MAX) + 0x10
        = 0xA0 + max ZERO (min channel CHANNEL_MAX)) by omega),
      show 0xA0 + max ZERO (min channel CHANNEL_MAX) + 0x10
        = 0xB0 + max ZERO (min channel CHANNEL_MAX) from by omega]
  refine ⟨?_, ?_, ?_, ?_, ?_⟩
  · simp only [setFNumber, setRegister_regs]
    simp
  · rw [hreg]
    simp only [Nat.and_distrib_right, Nat.and_assoc, shiftRight_land,
      show (0x300 : ℕ) >>> 8 = 0x03 from rfl,
      show (0xFC : ℕ) &&& 0xFC = 0xFC from rfl,
      show (0x03 : ℕ) &&& 0xFC = 0 from rfl,
      Nat.and_zero, Nat.or_zero]
  · unfold getBlock
    rw [hreg]
    simp only [Nat.and_distrib_right, Nat.and_assoc, shiftRight_land,
      show (0x300 : ℕ) >>> 8 = 0x03 from rfl,
      show (0xFC : ℕ) &&& 0x1C = 0x1C from rfl,
      show (0x03 : ℕ) &&& 0x1C = 0 from rfl,
      Nat.and_zero, Nat.or_zero]
  · unfold getKeyOn
    rw [hreg]
    simp only [Nat.and_distrib_right, Nat.and_assoc, shiftRight_land,
      show (0x300 : ℕ) >>> 8 = 0x03 from rfl,
      show (0xFC : ℕ) &&& 0x20 = 0x20 from rfl,
      show (0x03 : ℕ) &&& 0x20 = 0 from rfl,
      Nat.and_zero, Nat.or_zero]
  · intro a ha hb2
    simp only [setFNumber, setRegister_regs]
    rw [if_neg (by omega), if_neg ha]

/-! ### Claim C5 -/

/-- Reading back the freshly written field of a masked read-modify-write. -/
theorem rmw_low_field (x v keep low : ℕ) (hk : keep &&& low = 0) (hl : low &&& low = low) :
    ((x &&& keep) ||| (v &&& low)) &&& low = v &&& low := by
  simp only [Nat.and_distrib_right, Nat.and_assoc, hk, hl, Nat.and_zero, Nat.zero_or]

/-- A masked read-modify-write leaves any field inside the kept mask
untouched. -/
theorem rmw_keep_field (x v keep low mask : ℕ) (h1 : keep &&& mask = mask)
    (h2 : low &&& mask = 0) :
    ((x &&& keep) ||| (v &&& low)) &&& mask = x &&& mask := by
  simp only [Nat.and_distrib_right, Nat.and_assoc, h1, h2, Nat.and_zero, Nat.or_zero]

/-- Reading back the high nibble written by a shift-by-4 read-modify-write. -/
theorem rmw_shift_read (x v : ℕ) :
    (((x &&& 0x0F) ||| ((v &&& 0x0F) <<< 4)) &&& 0xF0) >>> 4 = v &&& 0x0F := by
  simp only [Nat.and_distrib_right, land_shiftLeft, Nat.and_assoc,
    show (0x0F : ℕ) &&& 0xF0 = 0 from rfl,
    show (0xF0 : ℕ) >>> 4 = 0x0F from rfl,
    show (0x0F : ℕ) &&& 0x0F = 0x0F from rfl,
    Nat.and_zero, Nat.zero_or, Nat.shiftLeft_shiftRight]

/-- A shift-by-4 read-modify-write leaves the low nibble untouched. -/
theorem rmw_shift_keep (x v : ℕ) :
    ((x &&& 0x0F) ||| ((v &&& 0x0F) <<< 4)) &&& 0x0F = x &&& 0x0F := by
  simp only [Nat.and_distrib_right, Nat.and_assoc, land_shiftLeft,
    show (0x0F : ℕ) &&& 0x0F = 0x0F from rfl,
    show (0x0F : ℕ) >>> 4 = 0 from rfl,
    Nat.and_zero, Nat.zero_shiftLeft, Nat.or_zero]

/-- Claim C5: for every channel in [0, 8], operator in {0, 1} and value
within the field's width, each of the seven setter/getter pairs (volume,
attack, decay, sustain, release, multiplier, waveform) is a lossless
round trip for its own packed field and leaves the adjacent fields of the
same register untouched (key-scale level for volume, decay for attack and
conversely, release for sustain and conversely, the four flag bits for the
multiplier, and the upper six bits of the 0xE0 register for waveform). -/
theorem c5_packed_field_roundtrips (s : OPL2State) (channel op v a d su r m w : Nat)
    (hch : channel ≤ 8) (hop : op ≤ 1) (hv : v ≤ 0x3F) (ha : a ≤ 0x0F) (hd : d ≤ 0x0F)
    (hsu : su ≤ 0x0F) (hr : r ≤ 0x0F) (hm : m ≤ 0x0F) (hw : w ≤ 0x03) :
    (getVolume (setVolume s channel op v) channel op = v ∧
     getScalingLevel (setVolume s channel op v) channel op = getScalingLevel s channel op) ∧
    (getAttack (setAttack s channel op a) channel op = a ∧
     getDecay (setAttack s channel op a) channel op = getDecay s channel op) ∧
    (getDecay (setDecay s channel op d) channel op = d ∧
     getAttack (setDecay s channel op d) channel op = getAttack s channel op) ∧
    (getSustain (setSustain s channel op su) channel op = su ∧
     getRelease (setSustain s channel op su) channel op = getRelease s channel op) ∧
    (getRelease (setRelease s channel op r) channel op = r ∧
     getSustain (setRelease s channel op r) channel op = getSustain s channel op) ∧
    (getMultiplier (setMultiplier s channel op m) channel op = m ∧
     getTremolo (setMultiplier s channel op m) channel op = getTremolo s channel op ∧
     getVibrato (setMultiplier s channel op m) channel op = getVibrato s channel op ∧
     getMaintainSustain (setMultiplier s channel op m) channel op
       = getMaintainSustain s channel op ∧
     getEnvelopeScaling (setMultiplier s channel op m) channel op
       = getEnvelopeScaling s channel op) ∧
    (getWaveForm (setWaveForm s channel op w) channel op = w ∧
     (setWaveForm s channel op w).regs (0xE0 + getRegisterOffset channel op) &&& 0xFC
       = s.regs (0xE0 + getRegisterOffset channel op) &&& 0xFC) := by
  have hV : (setVolume s channel op v).regs (0x40 + getRegisterOffset channel op)
      = (s.regs (0x40 + getRegisterOffset channel op) &&& 0xC0) ||| (v &&& 0x3F) := by
    simp only [setVolume, setRegister_regs]
    simp
  have hA : (setAttack s channel op a).regs (0x60 + getRegisterOffset channel op)
      = (s.regs (0x60 + getRegisterOffset channel op) &&& 0x0F) ||| ((a &&& 0x0F) <<< 4) := by
    simp only [setAttack, setRegister_regs]
    simp
  have hD : (setDecay s channel op d).regs (0x60 + getRegisterOffset channel op)
      = (s.regs (0x60 + getRegisterOffset channel op) &&& 0xF0) ||| (d &&& 0x0F) := by
    simp only [setDecay, setRegister_regs]
    simp
  have hS : (setSustain s channel op su).regs (0x80 + getRegisterOffset channel op)
      = (s.regs (0x80 + getRegisterOffset channel op) &&& 0x0F) ||| ((su &&& 0x0F) <<< 4) := by
    simp only [setSustain, setRegister_regs]
    simp
  have hR : (setRelease s channel op r).regs (0x80 + getRegisterOffset channel op)
      = (s.regs (0x80 + getRegisterOffset channel op) &&& 0xF0) ||| (r &&& 0x0F) := by
    simp only [setRelease, setRegister_regs]
    simp
  have hM : (setMultiplier s channel op m).regs (0x20 + getRegisterOffset channel op)
      = (s.regs (0x20 + getRegisterOffset channel op) &&& 0xF0) ||| (m &&& 0x0F) := by
    simp only [setMultiplier, setRegister_regs]
    simp
  have hW : (setWaveForm s channel op w).regs (0xE0 + getRegisterOffset channel op)
      = (s.regs (0xE0 + getRegisterOffset channel op) &&& 0xFC) ||| (w &&& 0x03) := by
    simp only [setWaveForm, setRegister_regs]
    simp
  refine ⟨⟨?_, ?_⟩, ⟨?_, ?_⟩, ⟨?_, ?_⟩, ⟨?_, ?_⟩, ⟨?_, ?_⟩, ⟨?_, ?_, ?_, ?_, ?_⟩, ⟨?_, ?_⟩⟩
  · simp only [getVolume, hV]
    rw [rmw_low_field _ _ _ _ rfl rfl, land63]
    omega
  · simp only [getScalingLevel, hV]
    rw [rmw_keep_field _ _ _ _ _ rfl rfl]
  · simp only [getAttack, hA]
    rw [rmw_shift_read, land15]
    omega
  · simp only [getDecay, hA]
    rw [rmw_shift_keep]
  · simp only [getDecay, hD]
    rw [rmw_low_field _ _ _ _ rfl rfl, land15]
    omega
  · simp only [getAttack, hD]
    rw [rmw_keep_field _ _ _ _ _ rfl rfl]
  · simp only [getSustain, hS]
    rw [rmw_shift_read, land15]
    omega
  · simp only [getRelease, hS]
    rw [rmw_shift_keep]
  · simp only [getRelease, hR]
    rw [rmw_low_field _ _ _ _ rfl rfl, land15]
    omega
  · simp only [getSustain, hR]
    rw [rmw_keep_field _ _ _ _ _ rfl rfl]
  · simp only [getMultiplier, hM]
    rw [rmw_low_field _ _ _ _ rfl rfl, land15]
    omega
  · simp only [getTremolo, hM]
    rw [rmw_keep_field _ _ _ _ _ rfl rfl]
  · simp only [getVibrato, hM]
    rw [rmw_keep_field _ _ _ _ _ rfl rfl]
  · simp only [getMaintainSustain, hM]
    rw [rmw_keep_field _ _ _ _ _ rfl rfl]
  · simp only [getEnvelopeScaling, hM]
    rw [rmw_keep_field _ _ _ _ _ rfl rfl]
  · simp only [getWaveForm, hW]
    rw [rmw_low_field _ _ _ _ rfl rfl, land3]
    omega
  · rw [hW, rmw_keep_field _ _ _ _ _ rfl rfl]

/-- Claim C5 witness: the round trips and preservations at channel 2,
operator 1, with concrete in-range field values. -/
theorem c5_packed_field_roundtrips_witness :
    (getVolume (setVolume initState 2 1 0x2A) 2 1 = 0x2A ∧
     getScalingLevel (setVolume initState 2 1 0x2A) 2 1 = getScalingLevel initState 2 1) ∧
    (getAttack (setAttack initState 2 1 0x0B) 2 1 = 0x0B ∧
     getDecay (setAttack initState 2 1 0x0B) 2 1 = getDecay initState 2 1) ∧
    (getDecay (setDecay initState 2 1 0x0C) 2 1 = 0x0C ∧
     getAttack (setDecay initState 2 1 0x0C) 2 1 = getAttack initState 2 1) ∧
    (getSustain (setSustain initState 2 1 0x0D) 2 1 = 0x0D ∧
     getRelease (setSustain initState 2 1 0x0D) 2 1 = getRelease initState 2 1) ∧
    (getRelease (setRelease initState 2 1 0x0E) 2 1 = 0x0E ∧
     getSustain (setRelease initState 2 1 0x0E) 2 1 = getSustain initState 2 1) ∧
    (getMultiplier (setMultiplier initState 2 1 0x09) 2 1 = 0x09 ∧
     getTremolo (setMultiplier initState 2 1 0x09) 2 1 = getTremolo initState 2 1 ∧
     getVibrato (setMultiplier initState 2 1 0x09) 2 1 = getVibrato initState 2 1 ∧
     getMaintainSustain (setMultiplier initState 2 1 0x09) 2 1
       = getMaintainSustain initState 2 1 ∧
     getEnvelopeScaling (setMultiplier initState 2 1 0x09) 2 1
       = getEnvelopeScaling initState 2 1) ∧
    (getWaveForm (setWaveForm initState 2 1 0x02) 2 1 = 0x02 ∧
     (setWaveForm initState 2 1 0x02).regs (0xE0 + getRegisterOffset 2 1) &&& 0xFC
       = initState.regs (0xE0 + getRegisterOffset 2 1) &&& 0xFC) :=
  c5_packed_field_roundtrips initState 2 1 0x2A 0x0B 0x0C 0x0D 0x0E 0x09 0x02
    (by decide) (by decide) (by decide) (by decide) (by decide) (by decide) (by decide)
    (by decide) (by decide)

/-! ### Claim C3 -/

/-- Clamping below by the constant ZERO is the identity on unsigned
values. -/
theorem max_ZERO (n : Nat) : max ZERO n = n := Nat.max_eq_right (Nat.zero_le n)

/-- Reducing twice modulo DRUM_SOUND_MAX is reducing once. -/
theorem mod5_mod5 (x : Nat) : x % 5 % 5 = x % 5 := by omega

/-- Clamping to [0, 1] over ℚ is idempotent. -/
theorem clamp01_idem (q : ℚ) : max 0 (min (max 0 (min q 1)) 1) = max 0 (min q 1) := by
  rcases le_total q 0 with h | h
  · simp [max_def, min_def]
    split_ifs <;> linarith
  · rcases le_total q 1 with h1 | h1
    · simp [max_def, min_def]
      split_ifs <;> linarith
    · simp [max_def, min_def]
      split_ifs <;> linarith

/-- Claim C3 counterexample: the drum type is NOT clamped to the nearest
valid bound.  `playDrum` with the out-of-range drum type 5 does not behave
as with the nearest valid drum 4 (hi-hat): it wraps around to drum 0
(bass), so after a reset it writes the note F-number to channel 6's 0xA6
register, which a call with drum 4 (channel 7) leaves at zero. -/
theorem c3_counterexample_drum_wraps :
    (playDrum (reset initState) 5 0 0).regs 0xA6 = 0x56 ∧
    (playDrum (reset initState) 4 0 0).regs 0xA6 = 0 ∧
    (playDrum (reset initState) 5 0 0).regs 0xA6
      ≠ (playDrum (reset initState) 4 0 0).regs 0xA6 :=
  ⟨rfl, rfl, by decide⟩

/-- Claim C3 (amended): every public operation is total (no error is ever
raised) and out-of-range channel, operator, note, octave and volume inputs
behave exactly as if replaced by the nearest valid bound (saturating
clamp), but the drum type of `playDrum` is reduced modulo DRUM_SOUND_MAX
(wrap-around), not clamped. -/
theorem c3_out_of_range_inputs_amended :
    (∀ channel operatorNum, getRegisterOffset channel operatorNum
        = getRegisterOffset (min channel 8) (min operatorNum 1)) ∧
    (∀ note, getNoteFNumber note = getNoteFNumber (min note 11)) ∧
    (∀ s channel octave note, playNote s channel octave note
        = playNote s (min channel 8) (min octave 7) (min note 11)) ∧
    (∀ s channel instrument volume, setInstrument s channel instrument volume
        = setInstrument s (min channel 8) instrument (max 0 (min volume 1))) ∧
    (∀ s drum octave note, playDrum s drum octave note
        = playDrum s (drum % 5) (min octave 7) (min note 11)) := by
  refine ⟨?_, ?_, ?_, ?_, ?_⟩
  · intro channel operatorNum
    simp [getRegisterOffset, ZERO, ONE, CHANNEL_MAX, max_ZERO, Nat.min_assoc]
  · intro note
    simp [getNoteFNumber, ZERO, NOTE_MAX, max_ZERO, Nat.min_assoc]
  · intro s channel octave note
    simp [playNote, setKeyOn, setBlock, setFNumber, ZERO, CHANNEL_MAX, OCTAVE_MAX,
      NOTE_MAX, max_ZERO, Nat.min_assoc]
  · intro s channel instrument volume
    simp [setInstrument, ZERO, CHANNEL_MAX, VOLUME_MIN, VOLUME_MAX, max_ZERO,
      Nat.min_assoc, clamp01_idem]
  · intro s drum octave note
    simp [playDrum, DRUM_SOUND_MAX, ZERO, OCTAVE_MAX, NOTE_MAX, max_ZERO,
      Nat.min_assoc, mod5_mod5]

/-! ### Claim C6 -/

/-- Truncation toward zero is monotone. -/
theorem ratTrunc_mono {q1 q2 : ℚ} (h : q1 ≤ q2) : ratTrunc q1 ≤ ratTrunc q2 := by
  unfold ratTrunc
  split_ifs with h1 h2 h3
  · exact Int.floor_le_floor h
  · exact absurd (le_trans h1 h) h2
  · refine le_trans (Int.ceil_le.mpr ?_) (Int.floor_nonneg.mpr h3)
    push_cast
    linarith [le_of_not_le h1]
  · exact Int.ceil_le_ceil h

/-- The channel's current block is always in [0, 7]. -/
theorem getBlock_le (s : OPL2State) (channel : Nat) : getBlock s channel ≤ 7 := by
  unfold getBlock
  have h1 : s.regs (0xB0 + max ZERO (min channel CHANNEL_MAX)) &&& 0x1C ≤ 0x1C :=
    Nat.and_le_right
  rw [Nat.shiftRight_eq_div_pow]
  omega

/-- Every per-block frequency step of the table is positive. -/
theorem fIntervals_pos (b : Nat) (hb : b ≤ 7) : 0 < fIntervals.getD b 0 := by
  interval_cases b <;> norm_num [fIntervals]

/-- Claim C6: with the channel state fixed (so the block, and hence the
frequency step, is the same for both calls), `getFrequencyFNumber` is
non-decreasing in the requested frequency for frequencies that map to the
same block: dividing by the positive step, truncating toward zero and
clamping to [F_NUM_MIN, F_NUM_MAX] are all monotone. -/
theorem c6_fNumber_monotone (s : OPL2State) (channel : Nat) (f1 f2 : ℚ) (h12 : f1 < f2)
    (hsame : getFrequencyBlock f1 = getFrequencyBlock f2) :
    getFrequencyFNumber s channel f1 ≤ getFrequencyFNumber s channel f2 := by
  unfold getFrequencyFNumber
  have hstep : 0 < getFrequencyStep s channel := by
    unfold getFrequencyStep
    exact fIntervals_pos _ (getBlock_le s channel)
  have hdiv : f1 / getFrequencyStep s channel ≤ f2 / getFrequencyStep s channel :=
    div_le_div_of_nonneg_right h12.le hstep.le
  exact max_le_max le_rfl (min_le_min (ratTrunc_mono hdiv) le_rfl)

/-- Claim C6 witness: 1 Hz and 2 Hz both lie in block 0 and quantize to
non-decreasing F-numbers on a freshly reset chip. -/
theorem c6_fNumber_monotone_witness :
    getFrequencyFNumber (reset initState) 0 1 ≤ getFrequencyFNumber (reset initState) 0 2 :=
  c6_fNumber_monotone (reset initState) 0 1 2 (by norm_num)
    (by norm_num [getFrequencyBlock, blockFrequencies])

/-! ### Claim C4 -/

/-- The bus log after a raw bus write. -/
theorem write_bus (s : OPL2State) (r v : Nat) : (write s r v).bus = (r, v) :: s.bus := rfl

/-- The bus log after a shadowed register write. -/
theorem setRegister_bus (s : OPL2State) (r v : Nat) :
    (setRegister s r v).bus = (r, v) :: s.bus := rfl

/-- The low 6 bits of a packed key-scale/output-level byte recover the
output level. -/
theorem packed_low6 (k n : ℕ) (hn : n ≤ 63) :
    (((k &&& 0x03) <<< 6) + (n &&& 0x3F)) &&& 0x3F = n := by
  simp only [land63, land3, Nat.shiftLeft_eq, show (2 : ℕ) ^ 6 = 64 from rfl]
  omega

/-- On its defined range [0, 63] the modelled float-to-byte cast is the
floor. -/
theorem floatToByte_eq_floor (q : ℚ) (h0 : 0 ≤ q) (h63 : q ≤ 63) :
    floatToByte q = (⌊q⌋).toNat := by
  unfold floatToByte ratTrunc
  rw [if_pos h0]
  apply Nat.mod_eq_of_lt
  have hle : ⌊q⌋ ≤ ⌊(63 : ℚ)⌋ := Int.floor_le_floor h63
  have h63' : ⌊(63 : ℚ)⌋ = 63 := by norm_num
  have hnn : 0 ≤ ⌊q⌋ := Int.floor_nonneg.mpr h0
  omega

/-- The clamped volume is non-negative. -/
theorem clampVolume_nonneg (v : ℚ) : 0 ≤ max VOLUME_MIN (min v VOLUME_MAX) := by
  simp [VOLUME_MIN]

/-- The clamped volume is at most one. -/
theorem clampVolume_le_one (v : ℚ) : max VOLUME_MIN (min v VOLUME_MAX) ≤ 1 := by
  show max (0 : ℚ) (min v 1) ≤ 1
  exact max_le (by norm_num) (min_le_right v 1)

/-- The scaled attenuation argument lies in [0, 63] for a base output
level of at most 63. -/
theorem scaled_arg_bounds (base : Nat) (hb : base ≤ 63) (v : ℚ) :
    0 ≤ (63 - (base : ℚ)) * max VOLUME_MIN (min v VOLUME_MAX) ∧
    (63 - (base : ℚ)) * max VOLUME_MIN (min v VOLUME_MAX) ≤ 63 := by
  have hb' : (base : ℚ) ≤ 63 := by exact_mod_cast hb
  have h1 : (0 : ℚ) ≤ 63 - (base : ℚ) := by linarith
  have h2 := clampVolume_nonneg v
  have h3 := clampVolume_le_one v
  constructor
  · exact mul_nonneg h1 h2
  · calc (63 - (base : ℚ)) * max VOLUME_MIN (min v VOLUME_MAX)
        ≤ (63 - (base : ℚ)) * 1 := by
          exact mul_le_mul_of_nonneg_left h3 h1
    _ ≤ 63 := by linarith

/-- The effective output level transmitted by the codec equals the spec's
volume-scaling law. -/
theorem effectiveLevel_eq (base : Nat) (hb : base ≤ 63) (v : ℚ) :
    63 - floatToByte ((63 - (base : ℚ)) * max VOLUME_MIN (min v VOLUME_MAX))
      = 63 - (⌊(63 - (base : ℚ)) * max VOLUME_MIN (min v VOLUME_MAX)⌋).toNat := by
  obtain ⟨h0, h63⟩ := scaled_arg_bounds base hb v
  rw [floatToByte_eq_floor _ h0 h63]

/-- At clamped volume 0 the volume-scaling law yields silence (63). -/
theorem effectiveLevel_at_zero (base : Nat) (v : ℚ)
    (hv : max VOLUME_MIN (min v VOLUME_MAX) = 0) :
    63 - (⌊(63 - (base : ℚ)) * max VOLUME_MIN (min v VOLUME_MAX)⌋).toNat = 63 := by
  rw [hv]
  simp

/-- At clamped volume 1 the volume-scaling law returns the base output
level unchanged. -/
theorem effectiveLevel_at_one (base : Nat) (hb : base ≤ 63) (v : ℚ)
    (hv : max VOLUME_MIN (min v VOLUME_MAX) = 1) :
    63 - (⌊(63 - (base : ℚ)) * max VOLUME_MIN (min v VOLUME_MAX)⌋).toNat = base := by
  rw [hv, mul_one, show (63 : ℚ) - (base : ℚ) = ((63 - base : ℕ) : ℚ) from by
    push_cast [hb]
    ring]
  rw [Int.floor_natCast]
  omega

/-- Every operator register offset of the table is at most 0x15. -/
theorem registerOffsets_le (o c : Nat) : (registerOffsets.getD o []).getD c 0 ≤ 0x15 := by
  rcases o with _ | _ | o
  · by_cases hc : c < 9
    · interval_cases c <;> decide
    · rw [List.getD_eq_default _ _ (by simp [registerOffsets]; omega)]
      omega
  · by_cases hc : c < 9
    · interval_cases c <;> decide
    · rw [List.getD_eq_default _ _ (by simp [registerOffsets]; omega)]
      omega
  · rw [show registerOffsets.getD (o + 2) [] = [] from by simp [registerOffsets]]
    simp

/-- The two operators of one channel use different register offsets. -/
theorem registerOffsets_op_ne (c : Nat) (hc : c ≤ 8) :
    (registerOffsets.getD 0 []).getD c 0 ≠ (registerOffsets.getD 1 []).getD c 0 := by
  interval_cases c <;> decide

/-- Claim C4: for every channel, instrument whose operator output levels
fit the 6-bit field, and volume, `setInstrument` transmits for each
operator a 0x40-group byte whose low 6 bits (the output level) equal
63 − ⌊(63 − baseOutputLevel) × v⌋ with v the volume clamped to [0, 1]; in
particular at clamped volume 0 the transmitted level is 63 (silence) and at
clamped volume 1 it is the instrument's original output level unchanged. -/
theorem c4_volume_scaling_law (s : OPL2State) (channel : Nat) (instrument : Instrument)
    (volume : ℚ) (h63 : ∀ o : Fin 2, (instrument.operators o).outputLevel ≤ 63) :
    ∀ op : Fin 2,
      Option.map (fun b => b &&& 0x3F)
          (lastWrite (setInstrument s channel instrument volume).bus
            (0x40 + (registerOffsets.getD (op : Nat) []).getD
              (max ZERO (min channel CHANNEL_MAX)) 0))
        = some (63 - (⌊(63 - ((instrument.operators op).outputLevel : ℚ))
            * max VOLUME_MIN (min volume VOLUME_MAX)⌋).toNat) ∧
      (max VOLUME_MIN (min volume VOLUME_MAX) = 0 →
        63 - (⌊(63 - ((instrument.operators op).outputLevel : ℚ))
            * max VOLUME_MIN (min volume VOLUME_MAX)⌋).toNat = 63) ∧
      (max VOLUME_MIN (min volume VOLUME_MAX) = 1 →
        63 - (⌊(63 - ((instrument.operators op).outputLevel : ℚ))
            * max VOLUME_MIN (min volume VOLUME_MAX)⌋).toNat
          = (instrument.operators op).outputLevel) := by
  intro op
  refine ⟨?_, effectiveLevel_at_zero _ volume, effectiveLevel_at_one _ (h63 op) volume⟩
  have hb0 := registerOffsets_le 0 (max ZERO (min channel CHANNEL_MAX))
  have hb1 := registerOffsets_le 1 (max ZERO (min channel CHANNEL_MAX))
  have hne := registerOffsets_op_ne (max ZERO (min channel CHANNEL_MAX))
    (by rw [max_ZERO]; exact min_le_right channel CHANNEL_MAX)
  fin_cases op
  · simp only [setInstrument, setInstrumentOperator, setWaveFormSelect, write_bus,
      setRegister_bus, show ((0 : Fin 2) : Nat) = 0 from rfl,
      show ((1 : Fin 2) : Nat) = 1 from rfl, lastWrite, Fin.isValue, Fin.mk_zero, Fin.mk_one]
    set m := max ZERO (min channel CHANNEL_MAX)
    set f0 := (registerOffsets.getD 0 []).getD m 0
    set f1 := (registerOffsets.getD 1 []).getD m 0
    rw [if_neg (show ¬(0xC0 + m = 0x40 + f0) by omega),
      if_neg (show ¬(0xE0 + f1 = 0x40 + f0) by omega),
      if_neg (show ¬(0x80 + f1 = 0x40 + f0) by omega),
      if_neg (show ¬(0x60 + f1 = 0x40 + f0) by omega),
      if_neg (show ¬(0x40 + f1 = 0x40 + f0) by omega),
      if_neg (show ¬(0x20 + f1 = 0x40 + f0) by omega),
      if_neg (show ¬(0xE0 + f0 = 0x40 + f0) by omega),
      if_neg (show ¬(0x80 + f0 = 0x40 + f0) by omega),
      if_neg (show ¬(0x60 + f0 = 0x40 + f0) by omega),
      if_pos trivial]
    simp only [Option.map_some']
    rw [packed_low6 _ _ (Nat.sub_le _ _), effectiveLevel_eq _ (h63 0) volume]
  · simp only [setInstrument, setInstrumentOperator, setWaveFormSelect, write_bus,
      setRegister_bus, show ((0 : Fin 2) : Nat) = 0 from rfl,
      show ((1 : Fin 2) : Nat) = 1 from rfl, lastWrite, Fin.isValue, Fin.mk_zero, Fin.mk_one]
    set m := max ZERO (min channel CHANNEL_MAX)
    set f0 := (registerOffsets.getD 0 []).getD m 0
    set f1 := (registerOffsets.getD 1 []).getD m 0
    rw [if_neg (show ¬(0xC0 + m = 0x40 + f1) by omega),
      if_neg (show ¬(0xE0 + f1 = 0x40 + f1) by omega),
      if_neg (show ¬(0x80 + f1 = 0x40 + f1) by omega),
      if_neg (show ¬(0x60 + f1 = 0x40 + f1) by omega),
      if_pos trivial]
    simp only [Option.map_some']
    rw [packed_low6 _ _ (Nat.sub_le _ _), effectiveLevel_eq _ (h63 1) volume]

/-- A concrete operator with distinctive field values, used to evaluate
the code at concrete inputs. -/
def demoOperator : Operator :=
  { hasTremolo := true, hasVibrato := false, hasSustain := true, hasEnvelopeScaling := false,
    frequencyMultiplier := 2, keyScaleLevel := 1, outputLevel := 10, attack := 5, decay := 3,
    sustain := 4, release := 6, waveForm := 2 }

/-- A second concrete operator with different field values. -/
def demoOperator2 : Operator :=
  { hasTremolo := false, hasVibrato := true, hasSustain := false, hasEnvelopeScaling := true,
    frequencyMultiplier := 7, keyScaleLevel := 2, outputLevel := 20, attack := 9, decay := 1,
    sustain := 8, release := 2, waveForm := 1 }

/-- A concrete melodic instrument. -/
def demoInstrument : Instrument :=
  { operators := fun _ => demoOperator, feedback := 3, isAdditiveSynth := true,
    type := INSTRUMENT_TYPE_MELODIC }

/-- A concrete bass drum instrument with two distinct operators. -/
def demoBassInstrument : Instrument :=
  { operators := fun i => if i = 0 then demoOperator else demoOperator2, feedback := 0,
    isAdditiveSynth := false, type := INSTRUMENT_TYPE_BASS }

/-- Claim C4 witness: applying the instrument with base output level 10 at
volume 1 on channel 0 of a fresh state. -/
theorem c4_volume_scaling_law_witness :
    Option.map (fun b => b &&& 0x3F)
        (lastWrite (setInstrument initState 0 demoInstrument 1).bus
          (0x40 + (registerOffsets.getD (((0 : Fin 2)) : Nat) []).getD
            (max ZERO (min 0 CHANNEL_MAX)) 0))
      = some (63 - (⌊(63 - ((demoInstrument.operators (0 : Fin 2)).outputLevel : ℚ))
          * max VOLUME_MIN (min 1 VOLUME_MAX)⌋).toNat) ∧
    (max VOLUME_MIN (min (1 : ℚ) VOLUME_MAX) = 0 →
      63 - (⌊(63 - ((demoInstrument.operators (0 : Fin 2)).outputLevel : ℚ))
          * max VOLUME_MIN (min 1 VOLUME_MAX)⌋).toNat = 63) ∧
    (max VOLUME_MIN (min (1 : ℚ) VOLUME_MAX) = 1 →
      63 - (⌊(63 - ((demoInstrument.operators (0 : Fin 2)).outputLevel : ℚ))
          * max VOLUME_MIN (min 1 VOLUME_MAX)⌋).toNat
        = (demoInstrument.operators (0 : Fin 2)).outputLevel) :=
  c4_volume_scaling_law initState 0 demoInstrument 1
    (fun o => by norm_num [demoInstrument, demoOperator]) 0

/-! ### Claim C1 -/

/-- Claim C1 (code bug, evaluated at a failing input): after a hard reset,
`setInstrument` on channel 0 with a concrete instrument transmits the
attack/decay byte 0x53 over the bus for register 0x60 (operator 0 of
channel 0), yet the shadow register file still holds 0 for address 0x60 —
the shadow state does not record the bytes `setInstrument` transmits,
because it calls the raw bus `write` instead of `setRegister`. -/
theorem c1_shadow_not_updated_bug :
    lastWrite (setInstrument (reset initState) 0 demoInstrument 1).bus 0x60 = some 0x53 ∧
    (setInstrument (reset initState) 0 demoInstrument 1).regs 0x60 = 0 ∧
    getRegister (setInstrument (reset initState) 0 demoInstrument 1) 0x60 = 0 :=
  ⟨rfl, rfl, rfl⟩

/-! ### Claim C2 -/

/-- Claim C2 (code bug, evaluated at a failing input): applying a concrete
instrument with operator-0 attack 5 at volume 1.0 to channel 0 and reading
it back with `getInstrument` yields attack 0, not 5 — the bytes were
transmitted with raw `write` and never reached the shadow state that
`getInstrument` reads. -/
theorem c2_roundtrip_fails_bug :
    ((getInstrument (setInstrument (reset initState) 0 demoInstrument 1) 0).operators 0).attack
      = 0 ∧
    (demoInstrument.operators 0).attack = 5 ∧
    ((getInstrument (setInstrument (reset initState) 0 demoInstrument 1) 0).operators 0).attack
      ≠ (demoInstrument.operators 0).attack :=
  ⟨rfl, rfl, by decide⟩

/-! ### Claim C9 -/

/-- Claim C9: for a bass-drum instrument (both drum operator offsets 0x10
and 0x13 valid) and any volume, `setDrumInstrument` writes, for each of
the two operator slots, the flags/multiplier byte, the key-scale bits, the
attack/decay byte, the sustain/release byte and the waveform byte computed
from the instrument's operator 0 fields; only the output-level portion of
slot 1's 0x40-group byte is derived from operator 1's outputLevel, so
operator 1's other fields never reach the registers.  The bus log is given
in full, most recent write first. -/
theorem c9_bass_drum_operator_sources (s : OPL2State) (instrument : Instrument) (volume : ℚ)
    (hty : instrument.type = INSTRUMENT_TYPE_BASS) :
    (setDrumInstrument s instrument volume).bus =
      (0xC0 + 6, 0x00) ::
      (0xE0 + 0x13, (instrument.operators 0).waveForm &&& 0x03) ::
      (0x80 + 0x13, (((instrument.operators 0).sustain &&& 0x0F) <<< 4) +
        ((instrument.operators 0).release &&& 0x0F)) ::
      (0x60 + 0x13, (((instrument.operators 0).attack &&& 0x0F) <<< 4) +
        ((instrument.operators 0).decay &&& 0x0F)) ::
      (0x40 + 0x13, (((instrument.operators 0).keyScaleLevel &&& 0x03) <<< 6) +
        ((63 - floatToByte ((63 - ((instrument.operators 1).outputLevel : ℚ))
          * max VOLUME_MIN (min volume VOLUME_MAX))) &&& 0x3F)) ::
      (0x20 + 0x13, (if (instrument.operators 0).hasTremolo then 0x80 else 0x00) +
        (if (instrument.operators 0).hasVibrato then 0x40 else 0x00) +
        (if (instrument.operators 0).hasSustain then 0x20 else 0x00) +
        (if (instrument.operators 0).hasEnvelopeScaling then 0x10 else 0x00) +
        ((instrument.operators 0).frequencyMultiplier &&& 0x0F)) ::
      (0xE0 + 0x10, (instrument.operators 0).waveForm &&& 0x03) ::
      (0x80 + 0x10, (((instrument.operators 0).sustain &&& 0x0F) <<< 4) +
        ((instrument.operators 0).release &&& 0x0F)) ::
      (0x60 + 0x10, (((instrument.operators 0).attack &&& 0x0F) <<< 4) +
        ((instrument.operators 0).decay &&& 0x0F)) ::
      (0x40 + 0x10, (((instrument.operators 0).keyScaleLevel &&& 0x03) <<< 6) +
        ((63 - floatToByte ((63 - ((instrument.operators 0).outputLevel : ℚ))
          * max VOLUME_MIN (min volume VOLUME_MAX))) &&& 0x3F)) ::
      (0x20 + 0x10, (if (instrument.operators 0).hasTremolo then 0x80 else 0x00) +
        (if (instrument.operators 0).hasVibrato then 0x40 else 0x00) +
        (if (instrument.operators 0).hasSustain then 0x20 else 0x00) +
        (if (instrument.operators 0).hasEnvelopeScaling then 0x10 else 0x00) +
        ((instrument.operators 0).frequencyMultiplier &&& 0x0F)) ::
      (0x01, s.regs 0x01 ||| 0x20) :: s.bus := by
  simp only [setDrumInstrument, setDrumInstrumentOperator, setWaveFormSelect, write_bus,
    setRegister_bus, hty, show ((0 : Fin 2) : Nat) = 0 from rfl,
    show ((1 : Fin 2) : Nat) = 1 from rfl]
  norm_num [drumRegisterOffsets, drumChannels, INSTRUMENT_TYPE_BASS]
  simp [write_bus, setRegister_bus]

/-- Claim C9 witness: the bass demo instrument applied at volume 1 on a
fresh state. -/
theorem c9_bass_drum_operator_sources_witness :
    (setDrumInstrument initState demoBassInstrument 1).bus =
      (0xC0 + 6, 0x00) ::
      (0xE0 + 0x13, (demoBassInstrument.operators 0).waveForm &&& 0x03) ::
      (0x80 + 0x13, (((demoBassInstrument.operators 0).sustain &&& 0x0F) <<< 4) +
        ((demoBassInstrument.operators 0).release &&& 0x0F)) ::
      (0x60 + 0x13, (((demoBassInstrument.operators 0).attack &&& 0x0F) <<< 4) +
        ((demoBassInstrument.operators 0).decay &&& 0x0F)) ::
      (0x40 + 0x13, (((demoBassInstrument.operators 0).keyScaleLevel &&& 0x03) <<< 6) +
        ((63 - floatToByte ((63 - ((demoBassInstrument.operators 1).outputLevel : ℚ))
          * max VOLUME_MIN (min 1 VOLUME_MAX))) &&& 0x3F)) ::
      (0x20 + 0x13, (if (demoBassInstrument.operators 0).hasTremolo then 0x80 else 0x00) +
        (if (demoBassInstrument.operators 0).hasVibrato then 0x40 else 0x00) +
        (if (demoBassInstrument.operators 0).hasSustain then 0x20 else 0x00) +
        (if (demoBassInstrument.operators 0).hasEnvelopeScaling then 0x10 else 0x00) +
        ((demoBassInstrument.operators 0).frequencyMultiplier &&& 0x0F)) ::
      (0xE0 + 0x10, (demoBassInstrument.operators 0).waveForm &&& 0x03) ::
      (0x80 + 0x10, (((demoBassInstrument.operators 0).sustain &&& 0x0F) <<< 4) +
        ((demoBassInstrument.operators 0).release &&& 0x0F)) ::
      (0x60 + 0x10, (((demoBassInstrument.operators 0).attack &&& 0x0F) <<< 4) +
        ((demoBassInstrument.operators 0).decay &&& 0x0F)) ::
      (0x40 + 0x10, (((demoBassInstrument.operators 0).keyScaleLevel &&& 0x03) <<< 6) +
        ((63 - floatToByte ((63 - ((demoBassInstrument.operators 0).outputLevel : ℚ))
          * max VOLUME_MIN (min 1 VOLUME_MAX))) &&& 0x3F)) ::
      (0x20 + 0x10, (if (demoBassInstrument.operators 0).hasTremolo then 0x80 else 0x00) +
        (if (demoBassInstrument.operators 0).hasVibrato then 0x40 else 0x00) +
        (if (demoBassInstrument.operators 0).hasSustain then 0x20 else 0x00) +
        (if (demoBassInstrument.operators 0).hasEnvelopeScaling then 0x10 else 0x00) +
        ((demoBassInstrument.operators 0).frequencyMultiplier &&& 0x0F)) ::
      (0x01, initState.regs 0x01 ||| 0x20) :: initState.bus :=
  c9_bass_drum_operator_sources initState demoBassInstrument 1 rfl
